import Mathlib

/-!
Verification of the AMS control-panel core of Percy2Live/bambuddy.

The definitions below are shallow embeddings of the TypeScript source:
  - JogPad.tsx        : AMSSectionDual (stage edge detection, initial sync,
                        unit-to-extruder routing, tray addressing, slot
                        rendering, tray selection), JogPad (move/home
                        confirmation gate), hexToRgb.
  - ExtruderControls  : extrude G-code generation and its confirmation gate.
Pure functions are translated directly; the React state updates are
translated as explicit state-passing step functions folded over the
incoming stream of status snapshots.
-/

/-! ## Stage constants and the filament-change card state machine -/

/-- MQTT stg_cur stage code: heating nozzle (source constant STAGE_HEATING_NOZZLE = 7). -/
def STAGE_HEATING_NOZZLE : Int := 7

/-- MQTT stage code: filament unloading (source constant = 22). -/
def STAGE_FILAMENT_UNLOADING : Int := 22

/-- MQTT stage code: filament loading (source constant = 24). -/
def STAGE_FILAMENT_LOADING : Int := 24

/-- MQTT stage code: changing filament (source constant = 4). -/
def STAGE_CHANGING_FILAMENT : Int := 4

/-- Embeds the source test
`[STAGE_HEATING_NOZZLE, STAGE_FILAMENT_UNLOADING, STAGE_FILAMENT_LOADING, STAGE_CHANGING_FILAMENT].includes(currentStage)`. -/
def isMqttFilamentChangeActive (stage : Int) : Bool :=
  stage == STAGE_HEATING_NOZZLE || stage == STAGE_FILAMENT_UNLOADING ||
  stage == STAGE_FILAMENT_LOADING || stage == STAGE_CHANGING_FILAMENT

/-- The component state touched by the stage edge-detection effect:
`prevStageRef.current` and `userFilamentChange` (the optimistic card marker,
`some isLoading` when the user opened the card, `none` otherwise). -/
structure CardState where
  prevStage : Int
  userCard : Option Bool
deriving DecidableEq

/-- Initial state: `prevStageRef = useRef<number>(-1)` and
`userFilamentChange = null`. -/
def initCardState : CardState := ⟨-1, none⟩

/-- Embeds the body of the auto-close useEffect in AMSSectionDual:
if the current stage is active, clear the user marker; else if the previous
stage was active and the current stage is -1, clear it (edge-triggered
dismissal); otherwise keep it.  Finally `prevStageRef.current = currentStage`. -/
def stageEffect (st : CardState) (currentStage : Int) : CardState :=
  let wasInFilamentChange := isMqttFilamentChangeActive st.prevStage
  let userCard' :=
    if isMqttFilamentChangeActive currentStage then none
    else if wasInFilamentChange && currentStage == -1 then none
    else st.userCard
  ⟨currentStage, userCard'⟩

/-- Folds the stage effect over a sequence of observed stage values. -/
def runStages (st : CardState) (stages : List Int) : CardState :=
  stages.foldl stageEffect st

/-- Embeds `showFilamentChangeCard = isMqttFilamentChangeActive || userFilamentChange !== null`. -/
def showFilamentChangeCard (st : CardState) (currentStage : Int) : Bool :=
  isMqttFilamentChangeActive currentStage || st.userCard.isSome

/-- Embeds `isFilamentLoading = userFilamentChange !== null ? userFilamentChange.isLoading
: (currentStage === STAGE_FILAMENT_LOADING || currentStage === STAGE_HEATING_NOZZLE)`. -/
def isFilamentLoading (userCard : Option Bool) (currentStage : Int) : Bool :=
  match userCard with
  | some b => b
  | none => currentStage == STAGE_FILAMENT_LOADING || currentStage == STAGE_HEATING_NOZZLE

/-! ## Initial sync from tray_now -/

/-- The component state touched by the initial-sync effect:
`initialSyncDone` ref, `selectedTray`, `loadTriggered`; `events` counts the
`setSelectedTray` calls made by this effect (selection events). -/
structure SyncState where
  done : Bool
  selectedTray : Option Nat
  loadTriggered : Bool
  events : Nat
deriving DecidableEq

/-- Initial state: sync not done, no selection, load not triggered. -/
def initSyncState : SyncState := ⟨false, none, false, 0⟩

/-- Embeds the initial-sync useEffect: bail out if already done; on a
non-null `tray_now` mark done, and when the value is neither 255 (none) nor
254 (external spool) seed `selectedTray` and `loadTriggered`. -/
def syncEffect (s : SyncState) (trayNow : Option Nat) : SyncState :=
  if s.done then s
  else
    match trayNow with
    | none => s
    | some t =>
      if t != 255 && t != 254 then
        ⟨true, some t, true, s.events + 1⟩
      else
        { s with done := true }

/-- Folds the initial-sync effect over a sequence of observed tray_now values. -/
def runSync (s : SyncState) (trays : List (Option Nat)) : SyncState :=
  trays.foldl syncEffect s

/-! ## AMS data model and unit-to-extruder routing -/

/-- One filament slot within an AMS unit (fields used by the core:
id = local slot index, tray_type, tray_color, remain, tray_uuid). -/
structure AMSTray where
  id : Nat
  tray_type : String
  tray_color : Option String
  remain : Int
  tray_uuid : Option String
deriving DecidableEq

/-- One AMS unit: integer id (≥ 128 means AMS-HT), nullable humidity and
temperature, and the ordered tray list. -/
structure AMSUnit where
  id : Nat
  humidity : Option Int
  temp : Option Int
  tray : List AMSTray
deriving DecidableEq

/-- Embeds `amsExtruderMap[String(unit.id)]`: the per-AMS extruder
assignment map, modelled as an association list keyed by unit id. -/
def amsExtruderLookup (m : List (Nat × Nat)) (k : Nat) : Option Nat :=
  (m.find? (fun p => p.1 == k)).map (fun p => p.2)

/-- Embeds the TypeScript `Array.prototype.filter((_, i) => p i)` pattern:
keep the elements whose snapshot-order index satisfies the predicate. -/
def filterWithIndex (p : Nat → Bool) : List AMSUnit → Nat → List AMSUnit
  | [], _ => []
  | u :: rest, i =>
    if p i then u :: filterWithIndex p rest (i + 1)
    else filterWithIndex p rest (i + 1)

/-- Embeds the `leftUnits` computation of AMSSectionDual: all units on a
single-nozzle machine; with a non-empty map, the units assigned to
extruder 1; with an empty map, the units at odd snapshot-order indices. -/
def leftUnits (isDualNozzle : Bool) (m : List (Nat × Nat))
    (amsUnits : List AMSUnit) : List AMSUnit :=
  if !isDualNozzle then amsUnits
  else if m.length > 0 then
    amsUnits.filter (fun u => amsExtruderLookup m u.id == some 1)
  else
    filterWithIndex (fun i => i % 2 == 1) amsUnits 0

/-- Embeds the `rightUnits` computation of AMSSectionDual: empty on a
single-nozzle machine; with a non-empty map, the units assigned to
extruder 0; with an empty map, the units at even snapshot-order indices. -/
def rightUnits (isDualNozzle : Bool) (m : List (Nat × Nat))
    (amsUnits : List AMSUnit) : List AMSUnit :=
  if !isDualNozzle then []
  else if m.length > 0 then
    amsUnits.filter (fun u => amsExtruderLookup m u.id == some 0)
  else
    filterWithIndex (fun i => i % 2 == 0) amsUnits 0

/-- An element sitting at index i of the list lands in the indexed filter
whenever the predicate holds of the offset start index plus i. -/
theorem getElem_mem_filterWithIndex (p : Nat → Bool) :
    ∀ (l : List AMSUnit) (k i : Nat) (h : i < l.length),
      p (k + i) = true → l[i] ∈ filterWithIndex p l k := by
  intro l
  induction l with
  | nil => intro k i h; simp at h
  | cons u rest ih =>
    intro k i h hp
    cases i with
    | zero =>
      simp only [Nat.add_zero] at hp
      simp [filterWithIndex, hp]
    | succ j =>
      have hj : j < rest.length := by simpa using h
      have hp' : p ((k + 1) + j) = true := by
        have : (k + 1) + j = k + (j + 1) := by omega
        rw [this]; exact hp
      have hmem := ih (k + 1) j hj hp'
      simp only [filterWithIndex]
      split
      · exact List.mem_cons_of_mem _ (by simpa using hmem)
      · simpa using hmem

/-- C1: card dismissal is edge-triggered only.  From no card, the sequence
stage -1 → 24 → -1 shows the card during loading and ends with it hidden;
from a user-opened card, the sequence -1 → -1 keeps the card shown at every
step and never clears the optimistic marker. -/
theorem card_dismiss_edge_triggered (b : Bool) :
    showFilamentChangeCard (runStages initCardState [-1, 24, -1]) (-1) = false ∧
    showFilamentChangeCard (runStages initCardState [-1, 24]) 24 = true ∧
    (runStages ⟨-1, some b⟩ [-1, -1]).userCard = some b ∧
    showFilamentChangeCard (runStages ⟨-1, some b⟩ [-1]) (-1) = true ∧
    showFilamentChangeCard (runStages ⟨-1, some b⟩ [-1, -1]) (-1) = true := by
  cases b <;> decide

/-- C2: whenever the device stage is in the active set, the stage effect
clears any optimistic user marker, and the displayed operation kind is then
derived from the device stage alone. -/
theorem device_stage_clears_user_marker (st : CardState) (cur : Int)
    (h : isMqttFilamentChangeActive cur = true) :
    (stageEffect st cur).userCard = none ∧
    isFilamentLoading (stageEffect st cur).userCard cur =
      (cur == STAGE_FILAMENT_LOADING || cur == STAGE_HEATING_NOZZLE) := by
  unfold stageEffect
  simp [h, isFilamentLoading]

/-- Witness for C2 at a concrete input: stage 22 (unloading) clears a
user-pending load marker and the card displays unloading. -/
theorem device_stage_clears_user_marker_witness :
    (stageEffect ⟨-1, some true⟩ 22).userCard = none ∧
    isFilamentLoading (stageEffect ⟨-1, some true⟩ 22).userCard 22 = false := by
  have h := device_stage_clears_user_marker ⟨-1, some true⟩ 22 (by decide)
  exact ⟨h.1, by rw [h.2]; decide⟩

/-- C3: sentinel tray_now values 255 and 254 never seed the selection (they
change neither `selectedTray` nor the event count, from any state), while a
valid value 37 seeds `selectedTray` and `loadTriggered` exactly once and a
second snapshot with the same value does not re-trigger. -/
theorem initial_sync_valid_once (s : SyncState) :
    (syncEffect s (some 255)).selectedTray = s.selectedTray ∧
    (syncEffect s (some 255)).events = s.events ∧
    (syncEffect s (some 254)).selectedTray = s.selectedTray ∧
    (syncEffect s (some 254)).events = s.events ∧
    runSync initSyncState [some 37, some 37] = ⟨true, some 37, true, 1⟩ := by
  unfold syncEffect
  refine ⟨?_, ?_, ?_, ?_, by decide⟩ <;> split <;> simp

/-- C9: the one-time initial-sync opportunity is consumed by the first
non-null tray_now even when it is a sentinel: after observing 255 (or 254)
the sync is done, and a valid id 37 arriving afterwards never seeds
selection or load-triggered. -/
theorem initial_sync_consumed_by_sentinel :
    (syncEffect initSyncState (some 255)).done = true ∧
    (syncEffect initSyncState (some 254)).done = true ∧
    runSync initSyncState [some 255, some 37] = ⟨true, none, false, 0⟩ ∧
    runSync initSyncState [some 254, some 37] = ⟨true, none, false, 0⟩ := by
  decide

/-- C4: on a dual-nozzle machine with a non-empty assignment map, a unit is
in the left group iff it maps to extruder 1 and in the right group iff it
maps to extruder 0, so an unmapped unit is in neither; with an empty map,
units at even snapshot-order indices go right and odd go left; on a
single-nozzle machine all units form the left group and the right group is
empty. -/
theorem router_partition (m : List (Nat × Nat)) (units : List AMSUnit)
    (u : AMSUnit) :
    (m ≠ [] → (u ∈ leftUnits true m units ↔
      u ∈ units ∧ amsExtruderLookup m u.id = some 1)) ∧
    (m ≠ [] → (u ∈ rightUnits true m units ↔
      u ∈ units ∧ amsExtruderLookup m u.id = some 0)) ∧
    (m ≠ [] → amsExtruderLookup m u.id = none →
      u ∉ leftUnits true m units ∧ u ∉ rightUnits true m units) ∧
    (∀ i (h : i < units.length), i % 2 = 0 →
      units[i] ∈ rightUnits true [] units) ∧
    (∀ i (h : i < units.length), i % 2 = 1 →
      units[i] ∈ leftUnits true [] units) ∧
    leftUnits false m units = units ∧ rightUnits false m units = [] := by
  have hlen : m ≠ [] → 0 < m.length := by
    intro hm; cases m with
    | nil => exact absurd rfl hm
    | cons a t => simp
  refine ⟨?_, ?_, ?_, ?_, ?_, ?_, ?_⟩
  · intro hm
    simp [leftUnits, hlen hm, List.mem_filter]
  · intro hm
    simp [rightUnits, hlen hm, List.mem_filter]
  · intro hm hnone
    constructor
    · intro hmem
      have := (by simp [leftUnits, hlen hm, List.mem_filter] at hmem; exact hmem :
        u ∈ units ∧ amsExtruderLookup m u.id = some 1)
      rw [hnone] at this
      exact absurd this.2 (by simp)
    · intro hmem
      have := (by simp [rightUnits, hlen hm, List.mem_filter] at hmem; exact hmem :
        u ∈ units ∧ amsExtruderLookup m u.id = some 0)
      rw [hnone] at this
      exact absurd this.2 (by simp)
  · intro i h hi
    have := getElem_mem_filterWithIndex (fun j => j % 2 == 0) units 0 i h
      (by simpa using hi)
    simpa [rightUnits] using this
  · intro i h hi
    have := getElem_mem_filterWithIndex (fun j => j % 2 == 1) units 0 i h
      (by simpa using hi)
    simpa [leftUnits] using this
  · simp [leftUnits]
  · simp [rightUnits]

/-- Witness for C4 at concrete inputs: with a map assigning 5 ↦ 1 and
6 ↦ 0 over units with ids 5, 6, 7, unit 5 is in the left group, unit 6 in the right
group, unit 7 in neither; with the empty map, index 0 goes right and index
1 goes left; on a single-nozzle machine everything is on the left. -/
theorem router_partition_witness :
    ((⟨5, none, none, []⟩ : AMSUnit) ∈
      leftUnits true [(5, 1), (6, 0)] [⟨5, none, none, []⟩, ⟨6, none, none, []⟩, ⟨7, none, none, []⟩]) ∧
    ((⟨6, none, none, []⟩ : AMSUnit) ∈
      rightUnits true [(5, 1), (6, 0)] [⟨5, none, none, []⟩, ⟨6, none, none, []⟩, ⟨7, none, none, []⟩]) ∧
    ((⟨7, none, none, []⟩ : AMSUnit) ∉
      leftUnits true [(5, 1), (6, 0)] [⟨5, none, none, []⟩, ⟨6, none, none, []⟩, ⟨7, none, none, []⟩]) ∧
    ((⟨5, none, none, []⟩ : AMSUnit) ∈
      rightUnits true [] [⟨5, none, none, []⟩, ⟨6, none, none, []⟩]) ∧
    ((⟨6, none, none, []⟩ : AMSUnit) ∈
      leftUnits true [] [⟨5, none, none, []⟩, ⟨6, none, none, []⟩]) ∧
    leftUnits false [] [⟨5, none, none, []⟩] = [⟨5, none, none, []⟩] := by
  refine ⟨?_, ?_, ?_, ?_, ?_, ?_⟩
  · exact ((router_partition [(5, 1), (6, 0)]
      [⟨5, none, none, []⟩, ⟨6, none, none, []⟩, ⟨7, none, none, []⟩]
      ⟨5, none, none, []⟩).1 (by decide)).mpr (by decide)
  · exact ((router_partition [(5, 1), (6, 0)]
      [⟨5, none, none, []⟩, ⟨6, none, none, []⟩, ⟨7, none, none, []⟩]
      ⟨6, none, none, []⟩).2.1 (by decide)).mpr (by decide)
  · exact ((router_partition [(5, 1), (6, 0)]
      [⟨5, none, none, []⟩, ⟨6, none, none, []⟩, ⟨7, none, none, []⟩]
      ⟨7, none, none, []⟩).2.2.1 (by decide) (by decide)).1
  · exact (router_partition [] [⟨5, none, none, []⟩, ⟨6, none, none, []⟩]
      ⟨5, none, none, []⟩).2.2.2.1 0 (by decide) (by decide)
  · exact (router_partition [] [⟨5, none, none, []⟩, ⟨6, none, none, []⟩]
      ⟨6, none, none, []⟩).2.2.2.2.1 1 (by decide) (by decide)
  · exact (router_partition [] [⟨5, none, none, []⟩]
      ⟨5, none, none, []⟩).2.2.2.2.2.1

/-! ## Tray addressing scheme and the inverse lookup -/

/-- Embeds `const slotsInUnit = unit.id >= 128 ? 2 : 4` (AMS-HT has 2 slots). -/
def slotsInUnit (u : AMSUnit) : Nat :=
  if u.id ≥ 128 then 2 else 4

/-- Embeds the global tray id computation `unit.id * 4 + slotIndex`
(`selectedUnit.id * 4 + tray.id` at the slot-click site, `baseSlotId +
slotIndex` in the scan loops). -/
def globalTrayId (unitId slotIndex : Nat) : Nat :=
  unitId * 4 + slotIndex

/-- Embeds the scan loop shared by getLoadedTrayInfo and
getExtruderIdForTray: walk the unit list and return the first unit whose
block [unit.id*4, unit.id*4 + slotsInUnit) contains the global tray id,
together with the recovered local slot index `trayId - baseSlotId`. -/
def findUnitSlot : List AMSUnit → Nat → Option (AMSUnit × Nat)
  | [], _ => none
  | u :: rest, trayId =>
    if u.id * 4 ≤ trayId ∧ trayId < u.id * 4 + slotsInUnit u then
      some (u, trayId - u.id * 4)
    else
      findUnitSlot rest trayId

/-- C5: the global tray id round-trips through the inverse lookup — for
every unit in the collection and every local slot index valid for that
unit, scanning the collection for `globalTrayId unit.id slot` recovers the
original unit and the original local slot index, provided unit ids are
unique. -/
theorem globalTrayId_roundtrip (units : List AMSUnit) (u : AMSUnit)
    (slot : Nat) (hnodup : (units.map AMSUnit.id).Nodup) (hu : u ∈ units)
    (hs : slot < slotsInUnit u) :
    findUnitSlot units (globalTrayId u.id slot) = some (u, slot) := by
  induction units with
  | nil => simp at hu
  | cons v rest ih =>
    have hslots_u : slotsInUnit u ≤ 4 := by
      unfold slotsInUnit; split <;> omega
    rcases List.mem_cons.mp hu with heq | hmem
    · subst heq
      have hcond : u.id * 4 ≤ globalTrayId u.id slot ∧
          globalTrayId u.id slot < u.id * 4 + slotsInUnit u := by
        unfold globalTrayId; omega
      simp only [findUnitSlot, if_pos hcond]
      have : globalTrayId u.id slot - u.id * 4 = slot := by
        unfold globalTrayId; omega
      rw [this]
    · have hn := hnodup
      rw [List.map_cons, List.nodup_cons] at hn
      have hne : v.id ≠ u.id := by
        have huid : u.id ∈ rest.map AMSUnit.id :=
          List.mem_map.mpr ⟨u, hmem, rfl⟩
        intro h
        exact hn.1 (h ▸ huid)
      have hslots_v : slotsInUnit v ≤ 4 := by
        unfold slotsInUnit; split <;> omega
      have hcond : ¬(v.id * 4 ≤ globalTrayId u.id slot ∧
          globalTrayId u.id slot < v.id * 4 + slotsInUnit v) := by
        unfold globalTrayId
        intro hc
        have : v.id = u.id := by omega
        exact hne this
      simp only [findUnitSlot, if_neg hcond]
      exact ih hn.2 hmem

/-- Witness for C5 at a concrete input: in a collection holding a standard
unit 0 and an HT unit 128, global id 128*4 + 1 = 513 recovers the HT unit
and slot 1, and global id 3 recovers unit 0 and slot 3. -/
theorem globalTrayId_roundtrip_witness :
    findUnitSlot [⟨0, none, none, []⟩, ⟨128, none, none, []⟩]
      (globalTrayId 128 1) = some (⟨128, none, none, []⟩, 1) ∧
    findUnitSlot [⟨0, none, none, []⟩, ⟨128, none, none, []⟩]
      (globalTrayId 0 3) = some (⟨0, none, none, []⟩, 3) :=
  ⟨globalTrayId_roundtrip [⟨0, none, none, []⟩, ⟨128, none, none, []⟩]
      ⟨128, none, none, []⟩ 1 (by decide) (by decide) (by decide),
   globalTrayId_roundtrip [⟨0, none, none, []⟩, ⟨128, none, none, []⟩]
      ⟨0, none, none, []⟩ 3 (by decide) (by decide) (by decide)⟩

/-! ## Confirmation gate and the command layer -/

/-- Result of a gated device command: plain success/failure, or the
confirmation-required marker shape carrying a token and a warning. -/
inductive CmdResult where
  | ok
  | confirmationRequired (token : String) (warning : String)
  | failed
deriving DecidableEq

/-- A call to `api.moveAxis(printerId, axis, distance, feedRate, token)`. -/
structure MoveCall where
  printerId : Nat
  axis : String
  distance : Int
  feedRate : Nat
  token : Option String
deriving DecidableEq

/-- A call to `api.homeAxes(printerId, axes, token)`. -/
structure HomeCall where
  printerId : Nat
  axes : String
  token : Option String
deriving DecidableEq

/-- A call to `api.sendGcode(printerId, gcode, token)`. -/
structure GcodeCall where
  printerId : Nat
  gcode : String
  token : Option String
deriving DecidableEq

/-- Embeds the moveMutation mutationFn of JogPad: the XY feed rate is fixed
at 3000, not taken from the variables. -/
def moveApiCall (printerId : Nat) (axis : String) (distance : Int)
    (token : Option String) : MoveCall :=
  ⟨printerId, axis, distance, 3000, token⟩

/-- Embeds the extrudeMutation mutationFn of ExtruderControls:
`const gcode = G91 newline G1 E(distance) F300 newline G90`. -/
def extrudeGcode (distance : Int) : String :=
  "G91\nG1 E" ++ toString distance ++ " F300\nG90"

/-- Embeds the JogPad move confirmation round-trip, started by
`handleMove`: the first call carries no token; when the response is
confirmation-required, approval runs the stored onConfirm — re-issuing with
the variables' axis and distance plus the response token — and then clears
the modal, while cancel just clears the modal.  Returns the list of api
calls issued and the final modal state (`some token` iff a prompt is
left pending). -/
def runMoveConfirmFlow (printerId : Nat) (axis : String) (distance : Int)
    (result : CmdResult) (approve : Bool) : List MoveCall × Option String :=
  let first := moveApiCall printerId axis distance none
  match result with
  | .confirmationRequired t _ =>
    if approve then
      ([first, moveApiCall printerId axis distance (some t)], none)
    else
      ([first], none)
  | _ => ([first], none)

/-- Embeds the JogPad home confirmation round-trip, started by
`handleHome` (axes fixed to XY): approval re-issues
`homeMutation.mutate(axes XY, token)`. -/
def runHomeConfirmFlow (printerId : Nat) (result : CmdResult)
    (approve : Bool) : List HomeCall × Option String :=
  let first : HomeCall := ⟨printerId, "XY", none⟩
  match result with
  | .confirmationRequired t _ =>
    if approve then
      ([first, ⟨printerId, "XY", some t⟩], none)
    else
      ([first], none)
  | _ => ([first], none)

/-- Embeds the ExtruderControls extrude confirmation round-trip: the modal
stores only the distance and token; approval re-runs the mutation on that
distance, which rebuilds the same G-code text, with the token attached. -/
def runExtrudeConfirmFlow (printerId : Nat) (distance : Int)
    (result : CmdResult) (approve : Bool) : List GcodeCall × Option String :=
  let first : GcodeCall := ⟨printerId, extrudeGcode distance, none⟩
  match result with
  | .confirmationRequired t _ =>
    if approve then
      ([first, ⟨printerId, extrudeGcode distance, some t⟩], none)
    else
      ([first], none)
  | _ => ([first], none)

/-- C6: for each gated command — move, home, extrude — a first response of
ConfirmationRequired with token T followed by approval issues exactly the
original command again with token T attached (same axis, distance, feed
rate, axes, or G-code text), while cancelling issues no further command;
both paths leave no pending modal. -/
theorem confirmation_roundtrip (printerId : Nat) (axis : String)
    (distance : Int) (t w : String) :
    runMoveConfirmFlow printerId axis distance
        (.confirmationRequired t w) true =
      ([moveApiCall printerId axis distance none,
        moveApiCall printerId axis distance (some t)], none) ∧
    runMoveConfirmFlow printerId axis distance
        (.confirmationRequired t w) false =
      ([moveApiCall printerId axis distance none], none) ∧
    runHomeConfirmFlow printerId (.confirmationRequired t w) true =
      ([⟨printerId, "XY", none⟩, ⟨printerId, "XY", some t⟩], none) ∧
    runHomeConfirmFlow printerId (.confirmationRequired t w) false =
      ([⟨printerId, "XY", none⟩], none) ∧
    runExtrudeConfirmFlow printerId distance
        (.confirmationRequired t w) true =
      ([⟨printerId, extrudeGcode distance, none⟩,
        ⟨printerId, extrudeGcode distance, some t⟩], none) ∧
    runExtrudeConfirmFlow printerId distance
        (.confirmationRequired t w) false =
      ([⟨printerId, extrudeGcode distance, none⟩], none) :=
  ⟨rfl, rfl, rfl, rfl, rfl, rfl⟩

/-! ## Extrude G-code text (C7) -/

/-- Modelled from the spec: the "three-line sequence" of the extrude
command, a list of lines joined by single newlines. -/
def joinLines : List String → String
  | [] => ""
  | [l] => l
  | l :: ls => l ++ "\n" ++ joinLines ls

/-- C7: for every distance d the emitted extrude command text is exactly
the three lines — relative-mode marker G91, a single move of d units at
feed rate 300, and the absolute-mode marker G90 — and for distance 5 the
text is literally G91, G1 E5 F300, G90 joined by newlines. -/
theorem extrude_gcode_three_lines (d : Int) :
    extrudeGcode d =
      joinLines ["G91", "G1 E" ++ toString d ++ " F300", "G90"] ∧
    extrudeGcode 5 = "G91\nG1 E5 F300\nG90" := by
  constructor
  · apply String.ext
    simp [extrudeGcode, joinLines, String.data_append, List.append_assoc]
  · decide

/-! ## Malformed-telemetry fallback rendering (C8) -/

/-- Value of a character as a base-16 digit, or none: the digits accepted
by the JavaScript parseInt with radix 16. -/
def hexVal (c : Char) : Option Nat :=
  if '0' ≤ c ∧ c ≤ '9' then some (c.toNat - '0'.toNat)
  else if 'a' ≤ c ∧ c ≤ 'f' then some (c.toNat - 'a'.toNat + 10)
  else if 'A' ≤ c ∧ c ≤ 'F' then some (c.toNat - 'A'.toNat + 10)
  else none

/-- Accumulates further hex digits; stops at the first non-digit, like
parseInt. -/
def parseIntHexAux : List Char → Nat → Nat
  | [], acc => acc
  | c :: cs, acc =>
    match hexVal c with
    | some v => parseIntHexAux cs (acc * 16 + v)
    | none => acc

/-- Embeds `parseInt(s, 16)` as used on the two-character colour slices:
the longest leading run of hex digits, or none (NaN) when the slice does
not start with a hex digit. -/
def parseIntHex : List Char → Option Nat
  | [] => none
  | c :: cs =>
    match hexVal c with
    | some v => some (parseIntHexAux cs v)
    | none => none

/-- Embeds the JavaScript `parseInt(...) || 128` idiom: NaN and 0 are both
falsy, so both fall back to the default. -/
def jsOrDefault (v : Option Nat) (d : Nat) : Nat :=
  match v with
  | none => d
  | some 0 => d
  | some n => n

/-- Embeds the JavaScript `hex.replace('#', '')` with a string pattern:
only the first occurrence of '#' is removed. -/
def replaceFirstHash : List Char → List Char
  | [] => []
  | c :: cs => if c = '#' then cs else c :: replaceFirstHash cs

/-- Embeds hexToRgb of JogPad.tsx: null maps to the gray fallback;
otherwise drop the first '#' if any, keep the first six characters, parse
the three two-character slices with the 128 fallback, and format as an rgb
string.  Strings are handled through their character lists. -/
def hexToRgb (hex : Option String) : String :=
  match hex with
  | none => "rgb(128, 128, 128)"
  | some h =>
    let cleanHex := (replaceFirstHash h.data).take 6
    let r := jsOrDefault (parseIntHex (cleanHex.take 2)) 128
    let g := jsOrDefault (parseIntHex ((cleanHex.drop 2).take 2)) 128
    let b := jsOrDefault (parseIntHex ((cleanHex.drop 4).take 2)) 128
    "rgb(" ++ toString r ++ ", " ++ toString g ++ ", " ++ toString b ++ ")"

/-- Embeds the slot-emptiness test
`!tray.tray_type || tray.tray_type === '' || tray.tray_type === 'NONE'`
(an empty string is falsy in JavaScript). -/
def isEmptySlot (t : AMSTray) : Bool :=
  t.tray_type == "" || t.tray_type == "NONE"

/-- Embeds JavaScript truthiness of the nullable `tray.tray_uuid`: null
and the empty string are falsy. -/
def uuidTruthy (u : Option String) : Bool :=
  match u with
  | none => false
  | some s => s != ""

/-- Which background an AMS slot renders: the striped empty pattern, the
quantity fill bar, or the full-colour block. -/
inductive SlotBackground where
  | striped
  | fillBar (heightPct : Int) (color : String)
  | fullColor (color : String)
deriving DecidableEq

/-- Embeds the AMSPanelContent slot background branches: the fill bar
renders only when the slot is non-empty, the uuid is truthy and remain is
non-negative (height clamped to 0–100); a non-empty slot without those
renders the full-colour block; an empty slot renders the striped pattern. -/
def slotBackground (t : AMSTray) : SlotBackground :=
  if isEmptySlot t then .striped
  else if uuidTruthy t.tray_uuid && t.remain ≥ 0 then
    .fillBar (min 100 (max 0 t.remain)) (hexToRgb t.tray_color)
  else
    .fullColor (hexToRgb t.tray_color)

/-- A character list whose head is not a hex digit parses to NaN. -/
theorem parseIntHex_eq_none (cs : List Char)
    (h : ∀ c ∈ cs, hexVal c = none) : parseIntHex cs = none := by
  cases cs with
  | nil => rfl
  | cons c rest =>
    have : hexVal c = none := h c (List.mem_cons_self c rest)
    simp [parseIntHex, this]

/-- C8: missing or malformed telemetry renders as the documented
fallbacks — a null colour and any colour string containing no hex digit
and no '#' both render as gray rgb(128, 128, 128), and a non-empty tray
whose uuid is null or whose remaining quantity is negative renders the
full-colour block, never the fill bar. -/
theorem telemetry_fallback_rendering (s : String) (t : AMSTray)
    (hs : ∀ c ∈ s.data, hexVal c = none ∧ c ≠ '#')
    (ht : isEmptySlot t = false)
    (hbad : t.tray_uuid = none ∨ t.remain < 0) :
    hexToRgb none = "rgb(128, 128, 128)" ∧
    hexToRgb (some s) = "rgb(128, 128, 128)" ∧
    slotBackground t = .fullColor (hexToRgb t.tray_color) := by
  refine ⟨rfl, ?_, ?_⟩
  · have hfilter : replaceFirstHash s.data = s.data := by
      have : ∀ cs : List Char, (∀ c ∈ cs, c ≠ '#') →
          replaceFirstHash cs = cs := by
        intro cs
        induction cs with
        | nil => intro _; rfl
        | cons c rest ih =>
          intro hcs
          have hc : c ≠ '#' := hcs c (List.mem_cons_self c rest)
          simp only [replaceFirstHash, if_neg hc]
          rw [ih (fun x hx => hcs x (List.mem_cons_of_mem c hx))]
      exact this s.data (fun c hc => (hs c hc).2)
    have htake : ∀ c ∈ s.data.take 6, hexVal c = none := fun c hc =>
      (hs c (List.take_subset 6 s.data hc)).1
    have h1 : parseIntHex ((s.data.take 6).take 2) = none :=
      parseIntHex_eq_none _ (fun c hc => htake c (List.take_subset 2 _ hc))
    have h2 : parseIntHex (((s.data.take 6).drop 2).take 2) = none :=
      parseIntHex_eq_none _ (fun c hc =>
        htake c (List.drop_subset 2 _ (List.take_subset 2 _ hc)))
    have h3 : parseIntHex (((s.data.take 6).drop 4).take 2) = none :=
      parseIntHex_eq_none _ (fun c hc =>
        htake c (List.drop_subset 4 _ (List.take_subset 2 _ hc)))
    simp only [hexToRgb]
    rw [hfilter, h1, h2, h3]
    rfl
  · unfold slotBackground
    rw [ht]
    have : (uuidTruthy t.tray_uuid && decide (t.remain ≥ 0)) = false := by
      rcases hbad with h | h
      · simp [uuidTruthy, h]
      · have : decide (t.remain ≥ 0) = false := by
          simp; omega
        simp [this]
    simp [this]

/-- Witness for C8 at a concrete input: the unparseable colour string zzz
renders gray, and a non-empty tray with a null uuid and negative remain
renders the full-colour block. -/
theorem telemetry_fallback_rendering_witness :
    hexToRgb none = "rgb(128, 128, 128)" ∧
    hexToRgb (some "zzz") = "rgb(128, 128, 128)" ∧
    slotBackground ⟨0, "PLA", some "zzz", -1, none⟩ =
      .fullColor (hexToRgb (some "zzz")) := by
  have h := telemetry_fallback_rendering "zzz"
    ⟨0, "PLA", some "zzz", -1, none⟩ (by decide) (by decide) (Or.inl rfl)
  exact ⟨h.1, h.2.1, h.2.2⟩

/-! ## Slot-click tray selection (C10) -/

/-- The shared selection state: the selected global tray id and the
load-triggered flag. -/
structure TrayUIState where
  selectedTray : Option Nat
  loadTriggered : Bool
deriving DecidableEq

/-- Embeds handleTraySelect of AMSSectionDual: a change of the selection
value clears loadTriggered in the same update; selecting the value already
held leaves the flag alone. -/
def handleTraySelect (s : TrayUIState) (trayId : Option Nat) : TrayUIState :=
  { selectedTray := trayId
    loadTriggered := if trayId ≠ s.selectedTray then false else s.loadTriggered }

/-- Embeds the slot onClick handler of AMSPanelContent: only when the slot
is non-empty and the printer is not printing, toggle — deselect when the
clicked slot is the selected one, otherwise select its global tray id. -/
def slotClick (s : TrayUIState) (isPrinting : Bool) (t : AMSTray)
    (gid : Nat) : TrayUIState :=
  let isSelected := s.selectedTray == some gid
  if !(isEmptySlot t) && !isPrinting then
    handleTraySelect s (if isSelected then none else some gid)
  else s

/-- C10: clicking a slot changes the selection only when the slot is
non-empty and the printer is not printing; clicking the selected slot
deselects it; and every selection change, deselection included, clears the
load-triggered flag in the same update. -/
theorem slot_click_selection (s : TrayUIState) (isPrinting : Bool)
    (t : AMSTray) (gid : Nat) :
    (isEmptySlot t = true ∨ isPrinting = true →
      slotClick s isPrinting t gid = s) ∧
    (isEmptySlot t = false → isPrinting = false →
      s.selectedTray = some gid →
      slotClick s isPrinting t gid = ⟨none, false⟩) ∧
    (isEmptySlot t = false → isPrinting = false →
      s.selectedTray ≠ some gid →
      slotClick s isPrinting t gid = ⟨some gid, false⟩) := by
  refine ⟨?_, ?_, ?_⟩
  · intro h
    rcases h with h | h <;> simp [slotClick, h]
  · intro he hp hsel
    simp [slotClick, he, hp, hsel, handleTraySelect]
  · intro he hp hsel
    have hbe : (s.selectedTray == some gid) = false := by
      simpa using hsel
    have hne : some gid ≠ s.selectedTray := fun h => hsel h.symm
    simp [slotClick, he, hp, hbe, handleTraySelect, hne]

/-- Witness for C10 at concrete inputs: clicking a non-empty slot with
global id 9 while idle selects it and clears load-triggered; clicking it
again deselects and keeps the flag cleared; clicking while printing
changes nothing. -/
theorem slot_click_selection_witness :
    slotClick ⟨none, true⟩ false ⟨1, "PLA", none, 50, none⟩ 9 =
      ⟨some 9, false⟩ ∧
    slotClick ⟨some 9, true⟩ false ⟨1, "PLA", none, 50, none⟩ 9 =
      ⟨none, false⟩ ∧
    slotClick ⟨some 9, true⟩ true ⟨1, "PLA", none, 50, none⟩ 9 =
      ⟨some 9, true⟩ := by
  refine ⟨?_, ?_, ?_⟩
  · exact (slot_click_selection ⟨none, true⟩ false
      ⟨1, "PLA", none, 50, none⟩ 9).2.2 (by decide) rfl (by simp)
  · exact (slot_click_selection ⟨some 9, true⟩ false
      ⟨1, "PLA", none, 50, none⟩ 9).2.1 (by decide) rfl rfl
  · exact (slot_click_selection ⟨some 9, true⟩ true
      ⟨1, "PLA", none, 50, none⟩ 9).1 (Or.inr rfl)
